import Mathlib

/-!
# StarGym backend — payment and subscription lifecycle, shallow embedding

Definitions are translated from the JavaScript source:
* `src/services/paymentService.js` (payment orders, webhook secret, UPI intent),
* `src/controllers/userController.js` (register, approvePayment, renewMembership, deleteUser),
* `src/models/User.js` (member schema and its defaults),
* the plan-price table `getPlanAmount` (utils/formatters),
* `src/routes/userRoutes.js` (revenue query over all membership history).

JavaScript strings stay `String`, numbers used as amounts/counters stay `Nat`,
dates/timestamps are opaque `Nat` clock values passed in explicitly, `null`/
`undefined` become `Option`, thrown exceptions become `Except String`.
Mongo stores become lists; `findOne`/`findById` is `List.find?` and a `save`
of a loaded document replaces the first matching list element.
-/

namespace StarGym

/-- Plan price table, from `getPlanAmount` (utils/formatters):
`planPrices[plan] || 0`. -/
def getPlanAmount (plan : String) : Nat :=
  if plan = "1month" then 1500
  else if plan = "2month" then 2500
  else if plan = "3month" then 3500
  else if plan = "6month" then 5000
  else if plan = "yearly" then 8000
  else 0

/-- Plan-to-months table from `paymentService.js` (`planToMonths`); absent keys
give `none` (JS `undefined`). -/
def planToMonths (plan : String) : Option Nat :=
  if plan = "1month" then some 1
  else if plan = "2month" then some 2
  else if plan = "3month" then some 3
  else if plan = "6month" then some 6
  else if plan = "yearly" then some 12
  else none

/-- Decimal digit character (code 48 + d). -/
def digitChar (d : Nat) : Char := Char.ofNat (48 + d)

/-- Decimal rendering of a natural number, as JS renders numbers in template
strings and `String(n)`. Fuel-based recursion; `n + 1` fuel always suffices. -/
def natToDigitsAux : Nat → Nat → List Char → List Char
  | 0, _, acc => acc
  | fuel + 1, n, acc =>
    if n < 10 then digitChar n :: acc
    else natToDigitsAux fuel (n / 10) (digitChar (n % 10) :: acc)

def natToString (n : Nat) : String := String.mk (natToDigitsAux (n + 1) n [])

/-- JS `amount.toFixed(2)` for the integral amounts this system uses. -/
def toFixed2 (n : Nat) : String := natToString n ++ ".00"

/-- `WEBHOOK_SECRET = process.env.PAYMENT_WEBHOOK_SECRET || 'changeme'`
(`paymentService.js` line 13); an absent or empty env value falls back. -/
def resolveWebhookSecret (env : Option String) : String :=
  match env with
  | none => "changeme"
  | some s => if s = "" then "changeme" else s

/-- `verifyWebhookSecret = (secret) => secret && secret === WEBHOOK_SECRET`
(`paymentService.js` line 138): a missing or empty supplied secret is falsy,
otherwise strict equality against the configured secret. -/
def verifyWebhookSecret (cfg : String) (secret : Option String) : Bool :=
  match secret with
  | none => false
  | some s => !(s = "") && s = cfg

/-- Amount resolution inside `createPayment` (`paymentService.js` 58–62):
`const resolvedAmount = amount || getPlanAmount(resolvedPlan);
 if (!resolvedAmount) { throw new Error('Unable to resolve amount for plan'); }` -/
def resolveOrderAmount (amount : Option Nat) (plan : String) : Except String Nat :=
  let resolved :=
    match amount with
    | none => getPlanAmount plan
    | some a => if a = 0 then getPlanAmount plan else a
  if resolved = 0 then Except.error "Unable to resolve amount for plan"
  else Except.ok resolved

/-- One `membershipHistory` ledger entry (`src/models/User.js`, embedded
schema): type join|renewal, date, duration (months as string), amount,
paymentMode, plan, paymentStatus, optional transactionId. -/
structure LedgerEntry where
  type : String
  date : Nat
  duration : String
  amount : Nat
  paymentMode : String
  plan : String
  paymentStatus : String
  transactionId : Option String
  deriving Repr, DecidableEq

/-- One `renewals` audit entry (`src/models/User.js`). -/
structure RenewalEntry where
  plan : String
  startDate : Nat
  endDate : Nat
  paymentMethod : String
  renewedAt : Nat
  previousPlan : String
  previousAmount : Nat
  newAmount : Nat
  deriving Repr, DecidableEq

/-- A member document (`src/models/User.js`), restricted to the fields the
payment/subscription lifecycle reads or writes. -/
structure Member where
  id : Nat
  name : String
  email : String
  phone : String
  photo : String
  plan : String
  originalJoinDate : Option Nat
  startDate : Nat
  endDate : Nat
  paymentMethod : String
  paymentStatus : String
  subscriptionStatus : String
  membershipHistory : List LedgerEntry
  renewals : List RenewalEntry
  renewalCount : Nat
  isDeleted : Bool
  deletedAt : Option Nat
  deriving Repr, DecidableEq

/-- A payment order document, with the fields `createPayment` persists
(`paymentService.js` 72–82) plus the ones the status transitions write. -/
structure Payment where
  user : Nat
  orderId : String
  amount : Nat
  currency : String
  status : String
  upiIntent : String
  transactionRef : Option String
  paidAt : Option Nat
  expiresAt : Nat
  metaPlan : Option String
  metaIsRenewal : Bool
  metaReason : Option String
  deriving Repr, DecidableEq

/-- The two Mongo collections the lifecycle touches. -/
structure State where
  users : List Member
  payments : List Payment
  deriving Repr, DecidableEq

/-- `Payment.findOne({ orderId })`: first document with that order id. -/
def findPayment (s : State) (orderId : String) : Option Payment :=
  s.payments.find? (fun p => p.orderId = orderId)

/-- `User.findById(id)`: first document with that id. -/
def findUser (s : State) (id : Nat) : Option Member :=
  s.users.find? (fun u => u.id = id)

/-- `payment.save()` on a document loaded by `findOne({ orderId })`:
replace the first matching document. -/
def savePayment : List Payment → String → Payment → List Payment
  | [], _, _ => []
  | q :: rest, oid, p =>
    if q.orderId = oid then p :: rest else q :: savePayment rest oid p

/-- `user.save()` on a document loaded by `findById`: replace the first
matching document. -/
def saveUser : List Member → Nat → Member → List Member
  | [], _, _ => []
  | v :: rest, i, u =>
    if v.id = i then u :: rest else v :: saveUser rest i u

/-- The payment mutation in `markPaymentPaid` (`paymentService.js` 95–97):
status `paid`, `transactionRef = transactionRef || payment.transactionRef ||
orderId`, `paidAt` = now. -/
def paidPayment (now : Nat) (transactionRef : Option String) (orderId : String)
    (p : Payment) : Payment :=
  { p with
    status := "paid"
    transactionRef := some ((transactionRef.orElse fun _ => p.transactionRef).getD orderId)
    paidAt := some now }

/-- The ledger entry `markPaymentPaid` pushes (`paymentService.js` 109–120):
type `join`, duration `String(planToMonths[user.plan] || 1)`, amount of the
paid order, mode `online`, confirmed, carrying the order's transaction ref. -/
def paidLedgerEntry (now : Nat) (p' : Payment) (u : Member) : LedgerEntry :=
  { type := "join"
    date := now
    duration := natToString ((planToMonths u.plan).getD 1)
    amount := p'.amount
    paymentMode := "online"
    plan := u.plan
    paymentStatus := "confirmed"
    transactionId := p'.transactionRef }

/-- The member mutation in `markPaymentPaid` (`paymentService.js` 101–121):
`paymentStatus = confirmed`, `subscriptionStatus = active`, confirmed ledger
entry appended. -/
def confirmedMember (now : Nat) (p' : Payment) (u : Member) : Member :=
  { u with
    paymentStatus := "confirmed"
    subscriptionStatus := "active"
    membershipHistory := u.membershipHistory ++ [paidLedgerEntry now p' u] }

/-- `markPaymentPaid({ orderId, transactionRef })`
(`paymentService.js` 87–125). Throws `Payment not found` when no order
matches; returns the order unchanged when already `paid`; otherwise marks it
paid and saves it, and — when `User.findById(payment.user)` resolves — sets
the member confirmed/active and appends the confirmed ledger entry before
saving the member. Returns the payment together with the post-state. -/
def markPaymentPaid (now : Nat) (orderId : String) (transactionRef : Option String)
    (s : State) : Except String (Payment × State) :=
  match findPayment s orderId with
  | none => Except.error "Payment not found"
  | some payment =>
    if payment.status = "paid" then
      Except.ok (payment, s)
    else
      let payment' := paidPayment now transactionRef orderId payment
      let s1 : State := { s with payments := savePayment s.payments orderId payment' }
      match findUser s1 payment.user with
      | none => Except.ok (payment', s1)
      | some user =>
        Except.ok (payment',
          { s1 with users := saveUser s1.users user.id (confirmedMember now payment' user) })

/-- The payment mutation in `markPaymentFailed` (`paymentService.js` 132–133):
status `failed`, reason merged into metadata. -/
def failedPayment (reason : String) (p : Payment) : Payment :=
  { p with status := "failed", metaReason := some reason }

/-- `markPaymentFailed({ orderId, reason })` (`paymentService.js` 127–136):
sets status `failed` and records the reason in metadata, with no check of the
current status. -/
def markPaymentFailed (orderId : String) (reason : String)
    (s : State) : Except String (Payment × State) :=
  match findPayment s orderId with
  | none => Except.error "Payment not found"
  | some payment =>
    Except.ok (failedPayment reason payment,
      { s with payments := savePayment s.payments orderId (failedPayment reason payment) })

/-- The default avatar URL used by the User schema and by `deleteUser`. -/
def defaultAvatar : String :=
  "https://res.cloudinary.com/dovjfipbt/image/upload/v1/default-avatar"

/-- `register` (`userController.js` 116–133): builds the new member document.
`paymentStatus` is set to `pending` explicitly; `subscriptionStatus` is not
set, so the schema default `active` applies (`models/User.js` 61–65), as do
the defaults for `renewals`, `renewalCount`, `isDeleted` and `deletedAt`;
`originalJoinDate` and `startDate` are both the submitted start date. -/
def register (id : Nat) (name email phone photo plan : String)
    (startDate endDate : Nat) (paymentMethod : String) : Member :=
  { id := id
    name := name
    email := email.toLower
    phone := phone
    photo := photo
    plan := plan
    originalJoinDate := some startDate
    startDate := startDate
    endDate := endDate
    paymentMethod := paymentMethod
    paymentStatus := "pending"
    subscriptionStatus := "active"
    membershipHistory := []
    renewals := []
    renewalCount := 0
    isDeleted := false
    deletedAt := none }

/-- The member mutation performed by `approvePayment`
(`userController.js` 264–295): `isRenewal` is inferred from `renewals` length
or `renewalCount`; a confirmed ledger entry is pushed (duration
`String(planToMonths[user.plan] || 0)`, amount `getPlanAmount(user.plan)`,
mode `user.paymentMethod`), then `paymentStatus = 'confirmed'` is set.
`subscriptionStatus` is not written by this handler. -/
def approvePayment (now : Nat) (user : Member) : Member :=
  let isRenewal := user.renewals.length > 0 || user.renewalCount > 0
  let historyType := if isRenewal then "renewal" else "join"
  let entry : LedgerEntry := {
    type := historyType
    date := now
    duration := natToString ((planToMonths user.plan).getD 0)
    amount := getPlanAmount user.plan
    paymentMode := user.paymentMethod
    plan := user.plan
    paymentStatus := "confirmed"
    transactionId := none }
  { user with
    membershipHistory := user.membershipHistory ++ [entry]
    paymentStatus := "confirmed" }

/-- The member mutation performed by `renewMembership`
(`userController.js` 884–916): capture previous plan/amount, freeze
`originalJoinDate` to the current start date only when it is absent, set the
requested plan/window/method, force `paymentStatus` and `subscriptionStatus`
to `pending`, push a `renewals` audit entry and increment `renewalCount`. -/
def renewMemberCore (now : Nat) (plan : String) (startDate endDate : Nat)
    (paymentMethod : String) (user : Member) : Member :=
  let previousPlan := user.plan
  let previousAmount := getPlanAmount user.plan
  let newAmount := getPlanAmount plan
  let user :=
    match user.originalJoinDate with
    | none => { user with originalJoinDate := some user.startDate }
    | some _ => user
  { user with
    plan := plan
    startDate := startDate
    endDate := endDate
    paymentMethod := paymentMethod
    paymentStatus := "pending"
    subscriptionStatus := "pending"
    renewals := user.renewals ++ [{
      plan := plan
      startDate := startDate
      endDate := endDate
      paymentMethod := paymentMethod
      renewedAt := now
      previousPlan := previousPlan
      previousAmount := previousAmount
      newAmount := newAmount }]
    renewalCount := user.renewalCount + 1 }

/-- The polling payload `renewMembership` builds from a created payment
(`userController.js` 934–943). -/
structure PaymentData where
  orderId : String
  amount : Nat
  currency : String
  expiresAt : Nat
  status : String
  deriving Repr, DecidableEq

/-- The JSON body `renewMembership` answers with on success
(`userController.js` 1057–1062): `orderId: paymentData?.orderId || null`. -/
structure RenewResponse where
  status : String
  message : String
  paymentData : Option PaymentData
  paymentOrderId : Option String
  deriving Repr, DecidableEq

/-- `renewMembership` for `paymentMethod = 'online'`
(`userController.js` 868–1062), with the outcome of the
`createPayment` call passed in explicitly (it performs I/O). A thrown
`paymentError` is caught and logged and the renewal continues
(`// Continue with renewal even if payment creation fails`, 944–947):
the member is saved in the pending state either way and the handler
responds `200 success` with `paymentData` (and hence `orderId`) null. -/
def renewMembershipOnline (now : Nat) (plan : String) (startDate endDate : Nat)
    (createResult : Except String Payment) (user : Member) :
    Member × RenewResponse :=
  let user' := renewMemberCore now plan startDate endDate "online" user
  let paymentData : Option PaymentData :=
    match createResult with
    | Except.error _ => none
    | Except.ok p =>
      some { orderId := p.orderId, amount := p.amount, currency := p.currency,
             expiresAt := p.expiresAt, status := p.status }
  (user', {
    status := "success"
    message := "Renewal request submitted successfully"
    paymentData := paymentData
    paymentOrderId := paymentData.map (fun d => d.orderId) })

/-- The member mutation performed by `deleteUser`
(`userController.js` 527–536): soft delete — flag and timestamp the
document, replace name/email/phone with marker values built from the current
values, reset the photo, and force `subscriptionStatus = 'expired'`.
`membershipHistory` (and everything else) is left untouched. -/
def deleteUser (now : Nat) (user : Member) : Member :=
  { user with
    isDeleted := true
    deletedAt := some now
    name := "[DELETED] " ++ user.name
    email := "deleted_" ++ natToString now ++ "_" ++ user.email
    phone := "deleted_" ++ natToString now ++ "_" ++ user.phone
    photo := defaultAvatar
    subscriptionStatus := "expired" }

/-- `GET /membership-history/all` (`userRoutes.js` 32–57): over all users,
deleted ones included, collect every `membershipHistory` entry with
`paymentStatus === 'confirmed'`, tagged with the user's id. -/
def allMembershipHistory (users : List Member) : List (Nat × LedgerEntry) :=
  users.flatMap (fun u =>
    (u.membershipHistory.filter (fun e => e.paymentStatus = "confirmed")).map
      (fun e => (u.id, e)))

/-- Upper-case hexadecimal digit, as `encodeURIComponent` emits. -/
def hexDigitChar (d : Nat) : Char :=
  if d < 10 then Char.ofNat (48 + d) else Char.ofNat (55 + d)

/-- Characters `encodeURIComponent` leaves unescaped:
`A–Z a–z 0–9 - _ . ! ~ * ' ( )`. -/
def isUriUnreserved (c : Char) : Bool :=
  let n := c.toNat
  (65 ≤ n && n ≤ 90) || (97 ≤ n && n ≤ 122) || (48 ≤ n && n ≤ 57) ||
  n = 45 || n = 95 || n = 46 || n = 33 || n = 126 || n = 42 || n = 39 ||
  n = 40 || n = 41

/-- UTF-8 bytes of a code point. -/
def utf8Bytes (c : Char) : List Nat :=
  let n := c.toNat
  if n < 128 then [n]
  else if n < 2048 then [192 + n / 64, 128 + n % 64]
  else if n < 65536 then [224 + n / 4096, 128 + n / 64 % 64, 128 + n % 64]
  else [240 + n / 262144, 128 + n / 4096 % 64, 128 + n / 64 % 64, 128 + n % 64]

/-- `%XX` escape of one byte. -/
def percentByte (b : Nat) : List Char :=
  [Char.ofNat 37, hexDigitChar (b / 16), hexDigitChar (b % 16)]

/-- JS `encodeURIComponent`: unreserved characters pass through, every other
character is percent-encoded byte-wise in UTF-8. -/
def encodeURIComponent (s : String) : String :=
  String.mk (s.data.flatMap (fun c =>
    if isUriUnreserved c then [c] else (utf8Bytes c).flatMap percentByte))

/-- `buildUpiIntent({ amount, orderId, note })` (`paymentService.js` 32–46):
rejects an unconfigured (empty) payee VPA, escapes the trimmed VPA, the
trimmed payee name and the note (`note || 'Gym subscription ' + orderId`),
and assembles
`upi://pay?pa=<VPA>&pn=<Name>&am=<amount.toFixed(2)>&cu=INR&tn=<note>&tr=<orderId>`. -/
def buildUpiIntent (payeeVpa payeeName : String) (amount : Nat)
    (orderId : String) (note : Option String) : Except String String :=
  if payeeVpa = "" then Except.error "UPI_VPA is not configured"
  else
    let noteStr :=
      match note with
      | none => "Gym subscription " ++ orderId
      | some s => if s = "" then "Gym subscription " ++ orderId else s
    let encodedNote := encodeURIComponent noteStr
    let encodedVPA := encodeURIComponent payeeVpa.trim
    let encodedName := encodeURIComponent payeeName.trim
    Except.ok ("upi://pay?pa=" ++ encodedVPA ++ "&pn=" ++ encodedName ++
      "&am=" ++ toFixed2 amount ++ "&cu=INR&tn=" ++ encodedNote ++
      "&tr=" ++ orderId)

/-- One renewal submission (the request fields `renewMembership` reads). -/
structure RenewReq where
  now : Nat
  plan : String
  startDate : Nat
  endDate : Nat
  paymentMethod : String
  deriving Repr, DecidableEq

/-- A sequence of renewal submissions applied to a member. -/
def applyRenewals (u : Member) (rs : List RenewReq) : Member :=
  rs.foldl (fun v r => renewMemberCore r.now r.plan r.startDate r.endDate r.paymentMethod v) u

/-- A concrete member used by the closed witness/counterexample theorems. -/
def sampleMember : Member :=
  { id := 1
    name := "Alice"
    email := "alice@example.com"
    phone := "9999999999"
    photo := defaultAvatar
    plan := "1month"
    originalJoinDate := some 100
    startDate := 100
    endDate := 200
    paymentMethod := "cash"
    paymentStatus := "confirmed"
    subscriptionStatus := "active"
    membershipHistory := [{
      type := "join", date := 100, duration := "1", amount := 1500,
      paymentMode := "cash", plan := "1month", paymentStatus := "confirmed",
      transactionId := none }]
    renewals := []
    renewalCount := 0
    isDeleted := false
    deletedAt := none }

/-- A concrete unpaid payment order owned by `sampleMember`. -/
def sampleOrder : Payment :=
  { user := 1
    orderId := "ORD-1"
    amount := 1500
    currency := "INR"
    status := "created"
    upiIntent := ""
    transactionRef := none
    paidAt := none
    expiresAt := 900000
    metaPlan := some "1month"
    metaIsRenewal := false
    metaReason := none }

/-- `sampleOrder` after it has been paid. -/
def samplePaidOrder : Payment :=
  { sampleOrder with status := "paid", transactionRef := some "TXN-9", paidAt := some 300 }

/-- A store holding `sampleMember` and the unpaid `sampleOrder`. -/
def sampleState : State := { users := [sampleMember], payments := [sampleOrder] }

/-- A store holding `sampleMember` and the already-paid order. -/
def samplePaidState : State := { users := [sampleMember], payments := [samplePaidOrder] }

/-! ## Helper lemmas -/

theorem resolveWebhookSecret_ne_empty (env : Option String) :
    resolveWebhookSecret env ≠ "" := by
  cases env with
  | none => simp [resolveWebhookSecret]
  | some s =>
    by_cases h : s = "" <;> simp [resolveWebhookSecret, h]

theorem getPlanAmount_eq_zero (plan : String)
    (h1 : plan ≠ "1month") (h2 : plan ≠ "2month") (h3 : plan ≠ "3month")
    (h4 : plan ≠ "6month") (h5 : plan ≠ "yearly") :
    getPlanAmount plan = 0 := by
  simp [getPlanAmount, h1, h2, h3, h4, h5]

theorem digitChar_unreserved (d : Nat) (h : d < 10) :
    isUriUnreserved (digitChar d) = true := by
  interval_cases d <;> decide

theorem natToDigitsAux_unreserved (fuel : Nat) : ∀ (n : Nat) (acc : List Char),
    (∀ c ∈ acc, isUriUnreserved c = true) →
    ∀ c ∈ natToDigitsAux fuel n acc, isUriUnreserved c = true := by
  induction fuel with
  | zero => exact fun n acc hacc c hc => hacc c hc
  | succ fuel ih =>
    intro n acc hacc c hc
    simp only [natToDigitsAux] at hc
    split at hc
    · rcases List.mem_cons.mp hc with h | h
      · exact h ▸ digitChar_unreserved n (by omega)
      · exact hacc c h
    · refine ih (n / 10) _ ?_ c hc
      intro c' hc'
      rcases List.mem_cons.mp hc' with h | h
      · exact h ▸ digitChar_unreserved (n % 10) (Nat.mod_lt n (by omega))
      · exact hacc c' h

theorem natToString_unreserved (n : Nat) :
    ∀ c ∈ (natToString n).data, isUriUnreserved c = true :=
  natToDigitsAux_unreserved (n + 1) n [] (by simp)

theorem toFixed2_unreserved (n : Nat) :
    ∀ c ∈ (toFixed2 n).data, isUriUnreserved c = true := by
  intro c hc
  rw [toFixed2, String.data_append] at hc
  rcases List.mem_append.mp hc with h | h
  · exact natToString_unreserved n c h
  · have hd : (".00" : String).data = ['.', '0', '0'] := rfl
    rw [hd] at h
    rcases List.mem_cons.mp h with rfl | h
    · decide
    rcases List.mem_cons.mp h with rfl | h
    · decide
    rcases List.mem_cons.mp h with rfl | h
    · decide
    · exact absurd h (List.not_mem_nil c)

theorem encodeList_unreserved_eq_self (l : List Char)
    (h : ∀ c ∈ l, isUriUnreserved c = true) :
    (l.flatMap (fun c =>
      if isUriUnreserved c then [c] else (utf8Bytes c).flatMap percentByte)) = l := by
  induction l with
  | nil => rfl
  | cons a t ih =>
    rw [List.flatMap_cons, if_pos (h a (List.mem_cons_self a t)),
      ih (fun c hc => h c (List.mem_cons_of_mem a hc))]
    rfl

theorem encodeURIComponent_eq_self (s : String)
    (h : ∀ c ∈ s.data, isUriUnreserved c = true) :
    encodeURIComponent s = s := by
  rw [encodeURIComponent, encodeList_unreserved_eq_self s.data h]

/-! ## Claim theorems -/

/-- C6: webhook authenticity verification rejects a missing secret and an
empty secret, and accepts a supplied secret exactly when it equals the
configured shared secret (which, by its `|| 'changeme'` fallback, is never
empty), for every possible environment configuration. -/
theorem webhook_secret_verification (env : Option String) (s : String) :
    verifyWebhookSecret (resolveWebhookSecret env) none = false ∧
    verifyWebhookSecret (resolveWebhookSecret env) (some "") = false ∧
    (verifyWebhookSecret (resolveWebhookSecret env) (some s) = true ↔
      s = resolveWebhookSecret env) := by
  refine ⟨rfl, by simp [verifyWebhookSecret], ?_⟩
  constructor
  · intro h
    simp only [verifyWebhookSecret, Bool.and_eq_true, decide_eq_true_eq,
      Bool.not_eq_true'] at h
    exact h.2
  · intro h
    subst h
    simp [verifyWebhookSecret, resolveWebhookSecret_ne_empty env]

/-- C8: resolving the price of a plan code outside
{1month, 2month, 3month, 6month, yearly} fails with the
`Unable to resolve amount for plan` error, while each recognized code
resolves to its configured amount. -/
theorem plan_price_resolution (plan : String)
    (h : plan ∉ (["1month", "2month", "3month", "6month", "yearly"] : List String)) :
    resolveOrderAmount none plan = Except.error "Unable to resolve amount for plan" ∧
    resolveOrderAmount none "1month" = Except.ok 1500 ∧
    resolveOrderAmount none "2month" = Except.ok 2500 ∧
    resolveOrderAmount none "3month" = Except.ok 3500 ∧
    resolveOrderAmount none "6month" = Except.ok 5000 ∧
    resolveOrderAmount none "yearly" = Except.ok 8000 := by
  simp only [List.mem_cons, List.not_mem_nil, or_false, not_or] at h
  obtain ⟨h1, h2, h3, h4, h5⟩ := h
  refine ⟨?_, rfl, rfl, rfl, rfl, rfl⟩
  simp [resolveOrderAmount, getPlanAmount_eq_zero plan h1 h2 h3 h4 h5]

/-- C9: the generated payment intent string encodes payee id, payee display
name, the amount with exactly two decimal places, the currency, the
transaction note and the order id as transaction reference, every parameter
value url-escaped (escaping is the identity on the amount, currency and the
order ids this system generates, whose characters are all unreserved), the
first parameter joined with `?` and the rest with `&`. -/
theorem upi_intent_format (vpa name note orderId : String) (amount : Nat)
    (hvpa : vpa ≠ "") (hnote : note ≠ "")
    (hord : ∀ c ∈ orderId.data, isUriUnreserved c = true) :
    buildUpiIntent vpa name amount orderId (some note) =
      Except.ok ("upi://pay?pa=" ++ encodeURIComponent vpa.trim ++
        "&pn=" ++ encodeURIComponent name.trim ++
        "&am=" ++ encodeURIComponent (toFixed2 amount) ++
        "&cu=" ++ encodeURIComponent "INR" ++
        "&tn=" ++ encodeURIComponent note ++
        "&tr=" ++ encodeURIComponent orderId) := by
  have hlit : ∀ X : String, X ++ "&cu=" ++ "INR" ++ "&tn=" = X ++ "&cu=INR&tn=" := by
    intro X
    rw [String.append_assoc, String.append_assoc]
    rfl
  rw [buildUpiIntent, if_neg hvpa]
  simp only [if_neg hnote]
  rw [encodeURIComponent_eq_self (toFixed2 amount) (toFixed2_unreserved amount),
    encodeURIComponent_eq_self orderId hord,
    show encodeURIComponent "INR" = "INR" from rfl, hlit]

/-- Witness for C9 at the configured payee, the 1-month price and a concrete
generated-style order id. -/
theorem upi_intent_format_witness :
    (("9898881882thanganat-1@okicici" : String) ≠ "" ∧
      ("Subscription 1month" : String) ≠ "" ∧
      (∀ c ∈ ("ORD-1f2a3b4c5d6e7f80" : String).data, isUriUnreserved c = true)) ∧
    buildUpiIntent "9898881882thanganat-1@okicici" "StarGym" 1500
        "ORD-1f2a3b4c5d6e7f80" (some "Subscription 1month") =
      Except.ok ("upi://pay?pa=" ++
        encodeURIComponent ("9898881882thanganat-1@okicici" : String).trim ++
        "&pn=" ++ encodeURIComponent ("StarGym" : String).trim ++
        "&am=" ++ encodeURIComponent (toFixed2 1500) ++
        "&cu=" ++ encodeURIComponent "INR" ++
        "&tn=" ++ encodeURIComponent "Subscription 1month" ++
        "&tr=" ++ encodeURIComponent "ORD-1f2a3b4c5d6e7f80") :=
  ⟨⟨by decide, by decide, by decide⟩,
    upi_intent_format "9898881882thanganat-1@okicici" "StarGym"
      "Subscription 1month" "ORD-1f2a3b4c5d6e7f80" 1500
      (by decide) (by decide) (by decide)⟩

/-- Witness for C8 at the concrete unknown plan code `"weekly"`. -/
theorem plan_price_resolution_witness :
    ("weekly" ∉ (["1month", "2month", "3month", "6month", "yearly"] : List String)) ∧
    (resolveOrderAmount none "weekly" =
        Except.error "Unable to resolve amount for plan" ∧
      resolveOrderAmount none "1month" = Except.ok 1500 ∧
      resolveOrderAmount none "2month" = Except.ok 2500 ∧
      resolveOrderAmount none "3month" = Except.ok 3500 ∧
      resolveOrderAmount none "6month" = Except.ok 5000 ∧
      resolveOrderAmount none "yearly" = Except.ok 8000) :=
  ⟨by decide, plan_price_resolution "weekly" (by decide)⟩

theorem findUser_set_payments (s : State) (ps : List Payment) (i : Nat) :
    findUser { s with payments := ps } i = findUser s i := rfl

theorem find?_eq_of_filter_singleton {α : Type} (pred : α → Bool) :
    ∀ (l : List α) (x : α), l.filter pred = [x] → l.find? pred = some x := by
  intro l
  induction l with
  | nil => intro x h; simp at h
  | cons a t ih =>
    intro x h
    by_cases ha : pred a = true
    · rw [List.filter_cons_of_pos ha] at h
      obtain ⟨rfl, -⟩ := List.cons_eq_cons.mp h
      exact List.find?_cons_of_pos t ha
    · rw [List.filter_cons_of_neg ha] at h
      rw [List.find?_cons_of_neg t ha]
      exact ih x h

theorem savePayment_find? (oid : String) (p' : Payment) (h' : p'.orderId = oid) :
    ∀ (l : List Payment) (p : Payment),
      l.find? (fun q => q.orderId = oid) = some p →
      (savePayment l oid p').find? (fun q => q.orderId = oid) = some p' := by
  intro l
  induction l with
  | nil => intro p h; simp at h
  | cons a t ih =>
    intro p h
    by_cases ha : a.orderId = oid
    · rw [savePayment, if_pos ha]
      exact List.find?_cons_of_pos t (by simpa using h')
    · rw [savePayment, if_neg ha]
      rw [List.find?_cons_of_neg t (by simpa using ha)] at h
      rw [List.find?_cons_of_neg (savePayment t oid p') (by simpa using ha)]
      exact ih p h

theorem savePayment_filter (oid : String) (p' : Payment) (h' : p'.orderId = oid) :
    ∀ (l : List Payment) (p : Payment),
      l.filter (fun q => q.orderId = oid) = [p] →
      (savePayment l oid p').filter (fun q => q.orderId = oid) = [p'] := by
  intro l
  induction l with
  | nil => intro p h; simp at h
  | cons a t ih =>
    intro p h
    by_cases ha : a.orderId = oid
    · rw [List.filter_cons_of_pos (by simpa using ha)] at h
      obtain ⟨rfl, ht⟩ := List.cons_eq_cons.mp h
      rw [savePayment, if_pos ha, List.filter_cons_of_pos (by simpa using h'), ht]
    · rw [List.filter_cons_of_neg (by simpa using ha)] at h
      rw [savePayment, if_neg ha, List.filter_cons_of_neg (by simpa using ha)]
      exact ih p h

theorem saveUser_find? (i : Nat) (u' : Member) (h' : u'.id = i) :
    ∀ (l : List Member) (u : Member),
      l.find? (fun v => v.id = i) = some u →
      (saveUser l i u').find? (fun v => v.id = i) = some u' := by
  intro l
  induction l with
  | nil => intro u h; simp at h
  | cons a t ih =>
    intro u h
    by_cases ha : a.id = i
    · rw [saveUser, if_pos ha]
      exact List.find?_cons_of_pos t (by simpa using h')
    · rw [saveUser, if_neg ha]
      rw [List.find?_cons_of_neg t (by simpa using ha)] at h
      rw [List.find?_cons_of_neg (saveUser t i u') (by simpa using ha)]
      exact ih u h

theorem markPaid_on_paid (now : Nat) (tref : Option String) (orderId : String)
    (s : State) (p : Payment) (hp : findPayment s orderId = some p)
    (hpaid : p.status = "paid") :
    markPaymentPaid now orderId tref s = Except.ok (p, s) := by
  simp only [markPaymentPaid, hp, if_pos hpaid]

theorem renewMemberCore_keeps_originalJoinDate
    (now : Nat) (plan : String) (sd ed : Nat) (pm : String) (u : Member) (d : Nat)
    (h : u.originalJoinDate = some d) :
    (renewMemberCore now plan sd ed pm u).originalJoinDate = some d := by
  simp [renewMemberCore, h]

theorem applyRenewals_keeps_originalJoinDate (rs : List RenewReq) :
    ∀ (u : Member) (d : Nat), u.originalJoinDate = some d →
      (applyRenewals u rs).originalJoinDate = some d := by
  induction rs with
  | nil => exact fun u d h => h
  | cons r t ih =>
    intro u d h
    exact ih _ d (renewMemberCore_keeps_originalJoinDate r.now r.plan
      r.startDate r.endDate r.paymentMethod u d h)

/-- C1: when `markPaymentPaid` transitions an order (not yet paid) to `paid`
and the owning member exists, the single resulting post-state has, at once:
the order `paid` with its amount unchanged, the member `confirmed`/`active`,
and a ledger entry whose amount equals the order's amount with status
`confirmed` — the operation produces no state with one update but not the
other. -/
theorem markPaid_syncs_member (now : Nat) (orderId : String) (tref : Option String)
    (s : State) (p : Payment) (u : Member)
    (hp : findPayment s orderId = some p)
    (hnew : p.status ≠ "paid")
    (hu : findUser s p.user = some u) :
    ∃ s', markPaymentPaid now orderId tref s =
        Except.ok (paidPayment now tref orderId p, s') ∧
      (paidPayment now tref orderId p).status = "paid" ∧
      (paidPayment now tref orderId p).amount = p.amount ∧
      findPayment s' orderId = some (paidPayment now tref orderId p) ∧
      findUser s' p.user = some (confirmedMember now (paidPayment now tref orderId p) u) ∧
      (confirmedMember now (paidPayment now tref orderId p) u).paymentStatus = "confirmed" ∧
      (confirmedMember now (paidPayment now tref orderId p) u).subscriptionStatus = "active" ∧
      ∃ e ∈ (confirmedMember now (paidPayment now tref orderId p) u).membershipHistory,
        e.amount = (paidPayment now tref orderId p).amount ∧
        e.paymentStatus = "confirmed" := by
  have hp' : s.payments.find? (fun q => q.orderId = orderId) = some p := hp
  have hpOrd : p.orderId = orderId := by simpa using List.find?_some hp'
  have hu' : s.users.find? (fun v => v.id = p.user) = some u := hu
  have huId : u.id = p.user := by simpa using List.find?_some hu'
  have heq : markPaymentPaid now orderId tref s =
      Except.ok (paidPayment now tref orderId p,
        { users := saveUser s.users u.id
            (confirmedMember now (paidPayment now tref orderId p) u),
          payments := savePayment s.payments orderId (paidPayment now tref orderId p) }) := by
    simp only [markPaymentPaid, hp, if_neg hnew, findUser_set_payments, hu]
  refine ⟨_, heq, rfl, rfl, ?_, ?_, rfl, rfl,
    ⟨paidLedgerEntry now (paidPayment now tref orderId p) u,
      List.mem_append_right _ (List.mem_cons_self _ _), rfl, rfl⟩⟩
  · exact savePayment_find? orderId (paidPayment now tref orderId p) hpOrd s.payments p hp'
  · show (saveUser s.users u.id
        (confirmedMember now (paidPayment now tref orderId p) u)).find?
        (fun v => v.id = p.user) =
      some (confirmedMember now (paidPayment now tref orderId p) u)
    rw [huId]
    exact saveUser_find? p.user
      (confirmedMember now (paidPayment now tref orderId p) u) huId s.users u hu'

/-- Witness for C1: the concrete one-member one-order store, order not yet
paid. -/
theorem markPaid_syncs_member_witness :
    (findPayment sampleState "ORD-1" = some sampleOrder ∧
      sampleOrder.status ≠ "paid" ∧
      findUser sampleState sampleOrder.user = some sampleMember) ∧
    (∃ s', markPaymentPaid 400 "ORD-1" (some "TXN-9") sampleState =
        Except.ok (paidPayment 400 (some "TXN-9") "ORD-1" sampleOrder, s') ∧
      (paidPayment 400 (some "TXN-9") "ORD-1" sampleOrder).status = "paid" ∧
      (paidPayment 400 (some "TXN-9") "ORD-1" sampleOrder).amount = sampleOrder.amount ∧
      findPayment s' "ORD-1" = some (paidPayment 400 (some "TXN-9") "ORD-1" sampleOrder) ∧
      findUser s' sampleOrder.user =
        some (confirmedMember 400 (paidPayment 400 (some "TXN-9") "ORD-1" sampleOrder)
          sampleMember) ∧
      (confirmedMember 400 (paidPayment 400 (some "TXN-9") "ORD-1" sampleOrder)
        sampleMember).paymentStatus = "confirmed" ∧
      (confirmedMember 400 (paidPayment 400 (some "TXN-9") "ORD-1" sampleOrder)
        sampleMember).subscriptionStatus = "active" ∧
      ∃ e ∈ (confirmedMember 400 (paidPayment 400 (some "TXN-9") "ORD-1" sampleOrder)
          sampleMember).membershipHistory,
        e.amount = (paidPayment 400 (some "TXN-9") "ORD-1" sampleOrder).amount ∧
        e.paymentStatus = "confirmed") :=
  ⟨⟨by decide, by decide, by decide⟩,
    markPaid_syncs_member 400 "ORD-1" (some "TXN-9") sampleState sampleOrder sampleMember
      (by decide) (by decide) (by decide)⟩

/-- C2: with exactly one order stored under the order id (not yet paid, its
member present), the first `markPaymentPaid` pays it and appends exactly one
ledger entry, and the second call returns the stored paid order unchanged
with the state exactly as the first call left it. -/
theorem markPaid_idempotent (now1 now2 : Nat) (tref1 tref2 : Option String)
    (orderId : String) (s : State) (p : Payment) (u : Member)
    (hfil : s.payments.filter (fun q => q.orderId = orderId) = [p])
    (hnew : p.status ≠ "paid")
    (hu : findUser s p.user = some u) :
    ∃ s1, markPaymentPaid now1 orderId tref1 s =
        Except.ok (paidPayment now1 tref1 orderId p, s1) ∧
      markPaymentPaid now2 orderId tref2 s1 =
        Except.ok (paidPayment now1 tref1 orderId p, s1) ∧
      s1.payments.filter (fun q => q.orderId = orderId) =
        [paidPayment now1 tref1 orderId p] ∧
      (paidPayment now1 tref1 orderId p).status = "paid" ∧
      findUser s1 p.user = some (confirmedMember now1 (paidPayment now1 tref1 orderId p) u) ∧
      (confirmedMember now1 (paidPayment now1 tref1 orderId p) u).membershipHistory =
        u.membershipHistory ++
          [paidLedgerEntry now1 (paidPayment now1 tref1 orderId p) u] := by
  have hp' : s.payments.find? (fun q => q.orderId = orderId) = some p :=
    find?_eq_of_filter_singleton _ s.payments p hfil
  have hp : findPayment s orderId = some p := hp'
  have hpOrd : p.orderId = orderId := by simpa using List.find?_some hp'
  have hu' : s.users.find? (fun v => v.id = p.user) = some u := hu
  have huId : u.id = p.user := by simpa using List.find?_some hu'
  have heq1 : markPaymentPaid now1 orderId tref1 s =
      Except.ok (paidPayment now1 tref1 orderId p,
        { users := saveUser s.users u.id
            (confirmedMember now1 (paidPayment now1 tref1 orderId p) u),
          payments := savePayment s.payments orderId (paidPayment now1 tref1 orderId p) }) := by
    simp only [markPaymentPaid, hp, if_neg hnew, findUser_set_payments, hu]
  have hfind1 : (savePayment s.payments orderId
      (paidPayment now1 tref1 orderId p)).find? (fun q => q.orderId = orderId) =
      some (paidPayment now1 tref1 orderId p) :=
    savePayment_find? orderId (paidPayment now1 tref1 orderId p) hpOrd s.payments p hp'
  refine ⟨_, heq1, ?_, ?_, rfl, ?_, rfl⟩
  · exact markPaid_on_paid now2 tref2 orderId _ _ hfind1 rfl
  · exact savePayment_filter orderId (paidPayment now1 tref1 orderId p) hpOrd s.payments p hfil
  · show (saveUser s.users u.id
        (confirmedMember now1 (paidPayment now1 tref1 orderId p) u)).find?
        (fun v => v.id = p.user) =
      some (confirmedMember now1 (paidPayment now1 tref1 orderId p) u)
    rw [huId]
    exact saveUser_find? p.user
      (confirmedMember now1 (paidPayment now1 tref1 orderId p) u) huId s.users u hu'

/-- Witness for C2: the concrete one-member one-order store. -/
theorem markPaid_idempotent_witness :
    (sampleState.payments.filter (fun q => q.orderId = "ORD-1") = [sampleOrder] ∧
      sampleOrder.status ≠ "paid" ∧
      findUser sampleState sampleOrder.user = some sampleMember) ∧
    (∃ s1, markPaymentPaid 400 "ORD-1" (some "TXN-9") sampleState =
        Except.ok (paidPayment 400 (some "TXN-9") "ORD-1" sampleOrder, s1) ∧
      markPaymentPaid 500 "ORD-1" (some "TXN-LATE") s1 =
        Except.ok (paidPayment 400 (some "TXN-9") "ORD-1" sampleOrder, s1) ∧
      s1.payments.filter (fun q => q.orderId = "ORD-1") =
        [paidPayment 400 (some "TXN-9") "ORD-1" sampleOrder] ∧
      (paidPayment 400 (some "TXN-9") "ORD-1" sampleOrder).status = "paid" ∧
      findUser s1 sampleOrder.user =
        some (confirmedMember 400 (paidPayment 400 (some "TXN-9") "ORD-1" sampleOrder)
          sampleMember) ∧
      (confirmedMember 400 (paidPayment 400 (some "TXN-9") "ORD-1" sampleOrder)
        sampleMember).membershipHistory =
        sampleMember.membershipHistory ++
          [paidLedgerEntry 400 (paidPayment 400 (some "TXN-9") "ORD-1" sampleOrder)
            sampleMember]) :=
  ⟨⟨by decide, by decide, by decide⟩,
    markPaid_idempotent 400 500 (some "TXN-9") (some "TXN-LATE") "ORD-1"
      sampleState sampleOrder sampleMember (by decide) (by decide) (by decide)⟩

/-- C3 counterexample: in the concrete store holding an already-paid order,
`markPaymentFailed` on that order id changes the order's status from `paid`
to `failed` — the status is not immutable once paid, contradicting the claim
at this input. -/
theorem paid_order_not_immutable :
    (findPayment samplePaidState "ORD-1").map Payment.status = some "paid" ∧
    (markPaymentFailed "ORD-1" "webhook_failed" samplePaidState).map
        (fun r => r.1.status) = Except.ok "failed" ∧
    ("failed" : String) ≠ "paid" := by
  refine ⟨rfl, rfl, by decide⟩

/-- C3 as amended: once an order is paid, `markPaymentPaid` returns it
unchanged without touching the state, and no operation changes its amount —
but `markPaymentFailed` does overwrite its status with `failed` (amount still
unchanged). -/
theorem paid_order_amount_stable (now : Nat) (tref : Option String)
    (orderId reason : String) (s : State) (p : Payment)
    (hp : findPayment s orderId = some p)
    (hpaid : p.status = "paid") :
    markPaymentPaid now orderId tref s = Except.ok (p, s) ∧
    markPaymentFailed orderId reason s =
      Except.ok (failedPayment reason p,
        { s with payments := savePayment s.payments orderId (failedPayment reason p) }) ∧
    (failedPayment reason p).amount = p.amount ∧
    (failedPayment reason p).status = "failed" := by
  refine ⟨markPaid_on_paid now tref orderId s p hp hpaid, ?_, rfl, rfl⟩
  simp only [markPaymentFailed, hp]

/-- Witness for the amended C3 at the concrete already-paid store. -/
theorem paid_order_amount_stable_witness :
    (findPayment samplePaidState "ORD-1" = some samplePaidOrder ∧
      samplePaidOrder.status = "paid") ∧
    (markPaymentPaid 999 "ORD-1" (some "TXN-X") samplePaidState =
        Except.ok (samplePaidOrder, samplePaidState) ∧
      markPaymentFailed "ORD-1" "late_failure" samplePaidState =
        Except.ok (failedPayment "late_failure" samplePaidOrder,
          { samplePaidState with payments := (savePayment samplePaidState.payments "ORD-1"
              (failedPayment "late_failure" samplePaidOrder)) }) ∧
      (failedPayment "late_failure" samplePaidOrder).amount = samplePaidOrder.amount ∧
      (failedPayment "late_failure" samplePaidOrder).status = "failed") :=
  ⟨⟨by decide, by decide⟩,
    paid_order_amount_stable 999 (some "TXN-X") "ORD-1" "late_failure"
      samplePaidState samplePaidOrder (by decide) (by decide)⟩

/-- C4: a member registered on the `1month` plan (price 1500) paying cash,
pending, with no prior renewals, has — after one admin approval —
`paymentStatus = confirmed`, `subscriptionStatus = active` (the schema
default, which `register` leaves in place and `approvePayment` does not
touch), and exactly one ledger entry
`{type: join, duration: "1", amount: 1500, plan: 1month, paymentStatus: confirmed}`. -/
theorem cash_registration_then_approval
    (id now : Nat) (name email phone photo : String) (startDate endDate : Nat) :
    (approvePayment now
        (register id name email phone photo "1month" startDate endDate "cash")).paymentStatus
        = "confirmed" ∧
    (approvePayment now
        (register id name email phone photo "1month" startDate endDate "cash")).subscriptionStatus
        = "active" ∧
    (approvePayment now
        (register id name email phone photo "1month" startDate endDate "cash")).membershipHistory
        = [{ type := "join", date := now, duration := "1", amount := 1500,
             paymentMode := "cash", plan := "1month", paymentStatus := "confirmed",
             transactionId := none }] :=
  ⟨rfl, rfl, rfl⟩

/-- C5: a member registered with start date `d` keeps `originalJoinDate = d`
across any sequence of renewal submissions, and after two renewals the
subscription window is exactly the second renewal's window. -/
theorem renewals_preserve_original_join_date
    (id : Nat) (name email phone photo plan : String) (d e0 : Nat) (pm : String)
    (r1 r2 : RenewReq) (rs : List RenewReq) :
    (applyRenewals (register id name email phone photo plan d e0 pm) rs).originalJoinDate
        = some d ∧
    (renewMemberCore r2.now r2.plan r2.startDate r2.endDate r2.paymentMethod
        (renewMemberCore r1.now r1.plan r1.startDate r1.endDate r1.paymentMethod
          (register id name email phone photo plan d e0 pm))).originalJoinDate = some d ∧
    (renewMemberCore r2.now r2.plan r2.startDate r2.endDate r2.paymentMethod
        (renewMemberCore r1.now r1.plan r1.startDate r1.endDate r1.paymentMethod
          (register id name email phone photo plan d e0 pm))).startDate = r2.startDate ∧
    (renewMemberCore r2.now r2.plan r2.startDate r2.endDate r2.paymentMethod
        (renewMemberCore r1.now r1.plan r1.startDate r1.endDate r1.paymentMethod
          (register id name email phone photo plan d e0 pm))).endDate = r2.endDate :=
  ⟨applyRenewals_keeps_originalJoinDate rs _ d rfl, rfl, rfl, rfl⟩

/-- C10: an online renewal submission whose payment-order creation throws
still saves the member in the pending renewal state (plan/window updated,
statuses pending, audit entry appended, counter incremented) and answers
success with null `paymentData` and null `orderId`. -/
theorem renewal_payment_failure_still_saves
    (now : Nat) (plan : String) (sd ed : Nat) (err : String) (u : Member) :
    ((renewMembershipOnline now plan sd ed (Except.error err) u).1.plan = plan) ∧
    ((renewMembershipOnline now plan sd ed (Except.error err) u).1.startDate = sd) ∧
    ((renewMembershipOnline now plan sd ed (Except.error err) u).1.endDate = ed) ∧
    ((renewMembershipOnline now plan sd ed (Except.error err) u).1.paymentStatus = "pending") ∧
    ((renewMembershipOnline now plan sd ed (Except.error err) u).1.subscriptionStatus = "pending") ∧
    ((renewMembershipOnline now plan sd ed (Except.error err) u).1.renewals =
      u.renewals ++ [{
        plan := plan, startDate := sd, endDate := ed, paymentMethod := "online",
        renewedAt := now, previousPlan := u.plan,
        previousAmount := getPlanAmount u.plan, newAmount := getPlanAmount plan }]) ∧
    ((renewMembershipOnline now plan sd ed (Except.error err) u).1.renewalCount =
      u.renewalCount + 1) ∧
    ((renewMembershipOnline now plan sd ed (Except.error err) u).2.status = "success") ∧
    ((renewMembershipOnline now plan sd ed (Except.error err) u).2.paymentData = none) ∧
    ((renewMembershipOnline now plan sd ed (Except.error err) u).2.paymentOrderId = none) := by
  cases h : u.originalJoinDate <;>
    simp [renewMembershipOnline, renewMemberCore, h]

/-- C7 counterexample: soft deletion is not irreversible anonymization — the
original name, email and phone are embedded verbatim in the replacement
values and are recovered exactly by dropping the fixed-length marker. -/
theorem soft_delete_recoverable :
    (deleteUser 5 sampleMember).name = "[DELETED] Alice" ∧
    ((deleteUser 5 sampleMember).name.drop 10 = sampleMember.name) ∧
    ((deleteUser 5 sampleMember).email.drop 10 = sampleMember.email) ∧
    ((deleteUser 5 sampleMember).phone.drop 10 = sampleMember.phone) := by
  refine ⟨rfl, ?_, ?_, ?_⟩ <;> decide

/-- C7 as amended: after soft deletion every `membershipHistory` entry is
unchanged and the revenue query still returns exactly what it returned
before; name, email and phone are replaced by marker-tagged values (built
from the originals, hence recoverable) and the member is flagged deleted. -/
theorem soft_delete_preserves_ledger (now : Nat) (u : Member)
    (pre post : List Member) :
    (deleteUser now u).membershipHistory = u.membershipHistory ∧
    allMembershipHistory (pre ++ deleteUser now u :: post) =
      allMembershipHistory (pre ++ u :: post) ∧
    (deleteUser now u).isDeleted = true ∧
    (deleteUser now u).name = "[DELETED] " ++ u.name ∧
    (deleteUser now u).email = "deleted_" ++ natToString now ++ "_" ++ u.email ∧
    (deleteUser now u).phone = "deleted_" ++ natToString now ++ "_" ++ u.phone := by
  refine ⟨rfl, ?_, rfl, rfl, rfl, rfl⟩
  simp only [allMembershipHistory, List.flatMap_append, List.flatMap_cons]
  rfl

end StarGym
